import Mathlib

/-!
Verification development for the premier-league feature-engineering pipeline
(`src/01_data_preprocessing.py`, `src/02_feature_engineering.py`).

The pandas code is shallowly embedded: a fixture table is a `List Row`
(one entry per dataframe row, in dataframe order), numeric match statistics
are rationals, calendar dates are naturals (only their ordering and equality
matter), and a missing value (pandas `NaN`) is `none` in an `Option`.
Column-level operations (`pd.get_dummies`, `DataFrame.drop`, `pd.concat`
along columns) are embedded separately as operations on a `Table`, a list of
named columns, since their behaviour (duplicate column names, dropped
columns) is not visible row-wise.
-/

set_option autoImplicit false

namespace PL

/-! ### Definitions: shallow embedding of the two source files -/

/-- One row of the fixture table consumed by `02_feature_engineering.py`
(the CSV produced by preprocessing), after `load_and_prepare_data`:
the `date` column is parsed (a comparable value, embedded as `ℕ`) and
`result` is the signed outcome from the home team's perspective. -/
structure Row where
  date : ℕ
  time : String
  round : String
  home_team : String
  away_team : String
  venue : String
  result : Int
  home_goals : ℚ
  away_goals : ℚ
  home_poss : ℚ
  away_poss : ℚ
  home_xg : ℚ
  away_xg : ℚ
  home_sh : ℚ
  away_sh : ℚ
  home_shot_on_target : ℚ
  away_shot_on_target : ℚ
  season : ℕ
deriving DecidableEq, Repr, Inhabited

/-- A raw row as read from CSV, before `load_and_prepare_data` runs:
`date` is still an unparsed string and `result` a label ("W"/"D"/"L"). -/
structure RawRow where
  date : String
  time : String
  round : String
  home_team : String
  away_team : String
  venue : String
  result : String
  home_goals : ℚ
  away_goals : ℚ
  home_poss : ℚ
  away_poss : ℚ
  home_xg : ℚ
  away_xg : ℚ
  home_sh : ℚ
  away_sh : ℚ
  home_shot_on_target : ℚ
  away_shot_on_target : ℚ
  season : ℕ
deriving DecidableEq, Repr, Inhabited

/-- The dict `results_map = {"W": 1, "D": 0, "L": -1}` of
`load_and_prepare_data`; a lookup of any other label is a `KeyError`,
embedded as `none`. -/
def resultsMap (x : String) : Option Int :=
  if x == "W" then some 1
  else if x == "D" then some 0
  else if x == "L" then some (-1)
  else none

/-- Per-row body of `load_and_prepare_data`: parse the date (the
`pd.to_datetime` conversion is abstracted as a given parse function) and map
the result label through `resultsMap`; a label outside the map raises
(`KeyError`), embedded as `Except.error`. All other fields are copied. -/
def prepareRow (parseDate : String → ℕ) (r : RawRow) : Except String Row :=
  match resultsMap r.result with
  | some v => .ok
      { date := parseDate r.date
        time := r.time
        round := r.round
        home_team := r.home_team
        away_team := r.away_team
        venue := r.venue
        result := v
        home_goals := r.home_goals
        away_goals := r.away_goals
        home_poss := r.home_poss
        away_poss := r.away_poss
        home_xg := r.home_xg
        away_xg := r.away_xg
        home_sh := r.home_sh
        away_sh := r.away_sh
        home_shot_on_target := r.home_shot_on_target
        away_shot_on_target := r.away_shot_on_target
        season := r.season }
  | none => .error "UnrecognizedOutcome"

/-- `load_and_prepare_data` over the whole table (the column-wise `apply`):
rows are converted in order and the first row whose label is unrecognized
aborts the run. -/
def loadAndPrepare (parseDate : String → ℕ) : List RawRow → Except String (List Row)
  | [] => .ok []
  | r :: rs =>
    match prepareRow parseDate r with
    | .ok q => (loadAndPrepare parseDate rs).map (fun qs => q :: qs)
    | .error e => .error e

/-- One row of `all_team_games` inside `create_rolling_features`: a fixture
re-expressed from one team's perspective, with the `team_*` columns the code
adds (result already sign-adjusted for away games). -/
structure TeamRec where
  date : ℕ
  result : Int
  team_goals : ℚ
  team_xg : ℚ
  team_shots : ℚ
  team_shots_on_target : ℚ
  team_poss : ℚ
  team_goals_conceded : ℚ
  team_xg_conceded : ℚ
deriving DecidableEq, Repr, Inhabited

/-- The home-perspective projection built by `create_rolling_features` for
rows with `home_team == team`: own statistics from the `home_*` columns,
conceded from the `away_*` columns, result unchanged. -/
def homePersp (r : Row) : TeamRec where
  date := r.date
  result := r.result
  team_goals := r.home_goals
  team_xg := r.home_xg
  team_shots := r.home_sh
  team_shots_on_target := r.home_shot_on_target
  team_poss := r.home_poss
  team_goals_conceded := r.away_goals
  team_xg_conceded := r.away_xg

/-- The away-perspective projection built by `create_rolling_features` for
rows with `away_team == team`: result negated (`result * -1`), own
statistics from the `away_*` columns, conceded from the `home_*` columns. -/
def awayPersp (r : Row) : TeamRec where
  date := r.date
  result := -r.result
  team_goals := r.away_goals
  team_xg := r.away_xg
  team_shots := r.away_sh
  team_shots_on_target := r.away_shot_on_target
  team_poss := r.away_poss
  team_goals_conceded := r.home_goals
  team_xg_conceded := r.home_xg

/-- Stable insertion of a record into a date-sorted list (earlier-listed
records stay before records with an equal date). -/
def insertByDate (x : TeamRec) : List TeamRec → List TeamRec
  | [] => [x]
  | y :: ys => if x.date ≤ y.date then x :: y :: ys else y :: insertByDate x ys

/-- Stable sort of team records ascending by date, modelling
`pd.concat([...]).sort_values('date')`. Tie order for equal dates is the
input (concatenation) order, matching the stable policy the spec flags
as the assumed behaviour. -/
def sortByDate (l : List TeamRec) : List TeamRec :=
  l.foldr insertByDate []

/-- The `all_team_games` sequence (before the rolling columns are added):
home-perspective rows of the team's home games, then away-perspective rows
of its away games, sorted ascending by date. -/
def teamGames (team : String) (df : List Row) : List TeamRec :=
  sortByDate
    (((df.filter (fun r => r.home_team == team)).map homePersp) ++
     ((df.filter (fun r => r.away_team == team)).map awayPersp))

/-- Arithmetic mean of a list of rationals (sum divided by length). -/
def listMean (l : List ℚ) : ℚ :=
  l.sum / l.length

/-- Pandas `Series.rolling(5, min_periods=1).mean()`: the value at position
`j` is the mean of the window of (up to) 5 entries ending at `j`, i.e.
entries `max(0, j-4) .. j`; since the window always contains at least the
entry at `j`, `min_periods=1` is always met and every value is defined. -/
def rollingMean5 (xs : List ℚ) : List ℚ :=
  (List.range xs.length).map (fun j => listMean ((xs.take (j + 1)).drop (j + 1 - 5)))

/-- Pandas `Series.shift(1)`: same length, `NaN` (here `none`) in front,
every other entry the predecessor's value; the last value drops off. -/
def shift1 (xs : List ℚ) : List (Option ℚ) :=
  match xs with
  | [] => []
  | _ :: _ => none :: xs.dropLast.map some

/-- The `*_last_5` column construction:
`.rolling(5, min_periods=1).mean().shift(1)`. -/
def rollingLast5 (xs : List ℚ) : List (Option ℚ) :=
  shift1 (rollingMean5 xs)

/-- The eight rolling statistics attached to `all_team_games`; a field is
`none` where the corresponding column holds `NaN`. -/
structure RollingStats where
  form : Option ℚ := none
  goals : Option ℚ := none
  goals_conceded : Option ℚ := none
  xg : Option ℚ := none
  xg_conceded : Option ℚ := none
  poss : Option ℚ := none
  shots : Option ℚ := none
  shots_on_target : Option ℚ := none
deriving DecidableEq, Repr, Inhabited

/-- The eight `*_last_5` values at position `i` of a team sequence, each
computed column-wise exactly as in `create_rolling_features`. -/
def statsAt (recs : List TeamRec) (i : ℕ) : RollingStats where
  form := (rollingLast5 (recs.map (fun r => (r.result : ℚ)))).getD i none
  goals := (rollingLast5 (recs.map TeamRec.team_goals)).getD i none
  goals_conceded := (rollingLast5 (recs.map TeamRec.team_goals_conceded)).getD i none
  xg := (rollingLast5 (recs.map TeamRec.team_xg)).getD i none
  xg_conceded := (rollingLast5 (recs.map TeamRec.team_xg_conceded)).getD i none
  poss := (rollingLast5 (recs.map TeamRec.team_poss)).getD i none
  shots := (rollingLast5 (recs.map TeamRec.team_shots)).getD i none
  shots_on_target := (rollingLast5 (recs.map TeamRec.team_shots_on_target)).getD i none

/-- `all_team_games` with its rolling columns: each record paired with the
rolling statistics computed at its position. -/
def attachRolling (recs : List TeamRec) : List (TeamRec × RollingStats) :=
  recs.enum.map (fun p => (p.2, statsAt recs p.1))

/-- A fixture row of `df_prep`: the original row plus the
`home_*_last_5` / `away_*_last_5` columns, which start out as `NaN`
(all `none`). -/
structure ERow extends Row where
  home_stats : RollingStats := {}
  away_stats : RollingStats := {}
deriving DecidableEq, Repr, Inhabited

/-- The team sequence of one team, with rolling columns attached. -/
def gamesFor (team : String) (df : List Row) : List (TeamRec × RollingStats) :=
  attachRolling (teamGames team df)

/-- The write-back lookup
`all_team_games[all_team_games['date'] == match_date]` followed by
`.iloc[0]`: the rolling statistics of the first record carrying the given
date, or `none` when no record matches (`team_stats.empty`). -/
def lookupStats (games : List (TeamRec × RollingStats)) (d : ℕ) :
    Option RollingStats :=
  ((games.filter (fun g => g.1.date == d)).head?).map Prod.snd

/-- Write the looked-up statistics into the `home_*_last_5` columns of a
fixture row; an empty lookup leaves the row untouched
(the `if not team_stats.empty` guard). -/
def setHome (r : ERow) (o : Option RollingStats) : ERow :=
  match o with
  | some s => { r with home_stats := s }
  | none => r

/-- Write the looked-up statistics into the `away_*_last_5` columns of a
fixture row; an empty lookup leaves the row untouched. -/
def setAway (r : ERow) (o : Option RollingStats) : ERow :=
  match o with
  | some s => { r with away_stats := s }
  | none => r

/-- The home write-back loop restricted to one row: rows whose home team is
the processed team receive the date lookup in their `home_*` columns. -/
def updateHome (team : String) (games : List (TeamRec × RollingStats))
    (r : ERow) : ERow :=
  if r.home_team == team then setHome r (lookupStats games r.date) else r

/-- The away write-back loop restricted to one row. -/
def updateAway (team : String) (games : List (TeamRec × RollingStats))
    (r : ERow) : ERow :=
  if r.away_team == team then setAway r (lookupStats games r.date) else r

/-- Effect of one iteration of the per-team loop on one fixture row: the
home write-back runs first, then the away write-back (they touch disjoint
columns). -/
def updateRow (team : String) (games : List (TeamRec × RollingStats))
    (r : ERow) : ERow :=
  updateAway team games (updateHome team games r)

/-- One iteration of the `for team in df_prep['home_team'].unique()` loop:
build the team's rolling sequence from the (unchanged) base columns and
write the date-matched statistics back into every row where the team plays
at home or away. -/
def applyTeam (team : String) (rows : List ERow) : List ERow :=
  rows.map (updateRow team (gamesFor team (rows.map ERow.toRow)))

/-- `pd.unique` order-preserving distinct values: first occurrences, in
order of appearance. -/
def uniqueFirst (l : List String) : List String :=
  l.foldl (fun acc x => if x ∈ acc then acc else acc ++ [x]) []

/-- The teams the loop iterates over: `df_prep['home_team'].unique()` —
note: distinct values of the home-team column only. -/
def homeTeamsOf (df : List Row) : List String :=
  uniqueFirst (df.map Row.home_team)

/-- The per-team loop over a given list of teams. -/
def stepTeams (ts : List String) (rows : List ERow) : List ERow :=
  ts.foldl (fun rs team => applyTeam team rs) rows

/-- `create_rolling_features`: start from the input fixture table (rolling
columns all missing) and run the per-team loop over the distinct home
teams. -/
def createRollingFeatures (df : List Row) : List ERow :=
  stepTeams (homeTeamsOf df) (df.map (fun r => { toRow := r }))

/-- A fixture row after `create_comparison_features`: the five difference
columns added to the enriched row. -/
structure CRow extends ERow where
  form_difference : Option ℚ
  goals_difference : Option ℚ
  xg_difference : Option ℚ
  poss_difference : Option ℚ
  defensive_difference : Option ℚ
deriving DecidableEq, Repr, Inhabited

/-- Pandas elementwise subtraction of two columns: `NaN` (here `none`)
whenever either operand is `NaN`. -/
def osub : Option ℚ → Option ℚ → Option ℚ
  | some a, some b => some (a - b)
  | _, _ => none

/-- `create_comparison_features`: per row, the five scalar differences —
form, goals, xg, possession as home minus away; defensive as away conceded
minus home conceded. -/
def createComparisonFeatures (df : List ERow) : List CRow :=
  df.map (fun r =>
    { toERow := r
      form_difference := osub r.home_stats.form r.away_stats.form
      goals_difference := osub r.home_stats.goals r.away_stats.goals
      xg_difference := osub r.home_stats.xg r.away_stats.xg
      poss_difference := osub r.home_stats.poss r.away_stats.poss
      defensive_difference :=
        osub r.away_stats.goals_conceded r.home_stats.goals_conceded })

/-- A cell value in the column-level table model: a string (team names,
labels) or a number (statistics, indicator values). -/
inductive Val where
  | str (s : String)
  | num (q : ℚ)
deriving DecidableEq, Repr, Inhabited

/-- Column-level view of a dataframe: a list of named columns, in column
order. Pandas permits duplicate column names (and `pd.concat` along
columns creates them), so this is a list, not a map. -/
abbrev Table := List (String × List Val)

/-- Read a column by label; with duplicate labels this is the first
occurrence, with absent labels `none`. -/
def getCol (t : Table) (n : String) : Option (List Val) :=
  ((t.filter (fun c => c.1 == n)).head?).map Prod.snd

/-- Lexicographic character-list comparison used to order the categories of
a column the way `pd.get_dummies` sorts them. -/
def charsLe : List Char → List Char → Bool
  | [], _ => true
  | _ :: _, [] => false
  | x :: xs, y :: ys => if x < y then true else if x = y then charsLe xs ys else false

/-- Ordering on cell values for category sorting: strings ordered
lexicographically; in this pipeline the team columns only ever hold
strings, and numbers are ordered after them. -/
def valLeb : Val → Val → Bool
  | .str a, .str b => charsLe a.data b.data
  | .str _, .num _ => true
  | .num _, .str _ => false
  | .num a, .num b => a ≤ b

/-- Insert into a `valLeb`-sorted list. -/
def insertVal (x : Val) : List Val → List Val
  | [] => [x]
  | y :: ys => if valLeb x y then x :: y :: ys else y :: insertVal x ys

/-- Sort values ascending (category order of `pd.get_dummies`). -/
def sortVals (l : List Val) : List Val :=
  l.foldr insertVal []

/-- Name under which a category value appears in a dummy column; team
categories are strings. -/
def valName : Val → String
  | .str s => s
  | .num _ => "#num"

/-- `pd.get_dummies` on a single column with a prefix (separator `_`,
`dtype=int`): one indicator column per distinct value, in sorted category
order, holding 1 where the column equals the category and 0 elsewhere. -/
def mkDummies (pre : String) (col : List Val) : Table :=
  (sortVals col.dedup).map (fun v =>
    (pre ++ valName v, col.map (fun x => if x == v then Val.num 1 else Val.num 0)))

/-- `pd.get_dummies(df[['home_team', 'away_team']], prefix=['home','away'],
dtype=int)`: the home-team indicators followed by the away-team
indicators. -/
def dummyCols (t : Table) : Table :=
  (match getCol t "home_team" with
   | some col => mkDummies "home_" col
   | none => []) ++
  (match getCol t "away_team" with
   | some col => mkDummies "away_" col
   | none => [])

/-- `encode_teams`: `pd.concat([df, dummies], axis=1)` — the dummy columns
are appended to the table (duplicating any columns of the same name already
present). -/
def encodeTeams (t : Table) : Table :=
  t ++ dummyCols t

/-- `DataFrame.drop(columns=cs)`: raises a `KeyError` when any label is
absent, otherwise removes every column carrying one of the labels. -/
def dropCols (t : Table) (cs : List String) : Except String Table :=
  if cs.all (fun c => (t.map Prod.fst).contains c) then
    .ok (t.filter (fun col => !(cs.contains col.1)))
  else .error "KeyError"

/-- `clean_data`: default drop list `['season', 'home_formation',
'away_formaation']` (the third label is misspelled in the source), filtered
to the labels actually present, dropped only when that filter is
nonempty. -/
def cleanData (t : Table) (columns_to_drop : Option (List String)) :
    Except String Table :=
  let toDrop := columns_to_drop.getD ["season", "home_formation", "away_formaation"]
  let present := toDrop.filter (fun c => (t.map Prod.fst).contains c)
  if present.isEmpty then .ok t else dropCols t present

/-- A row of `df_home` in `preprocess_match_data`, after the home-side
column renaming (`result` is still the raw label at this stage). -/
structure HRow where
  date : ℕ
  time : String
  round : String
  home_team : String
  away_team : String
  venue : String
  home_goals : ℚ
  away_goals : ℚ
  result : String
  home_formation : String
  away_formation : String
  home_poss : ℚ
  home_xg : ℚ
  away_xg : ℚ
  home_sh : ℚ
  home_shot_on_target : ℚ
  home_dist_covered : ℚ
  season : ℕ
deriving DecidableEq, Repr, Inhabited

/-- A row of `away_stats_to_add`: the key columns plus the four away-side
statistics carried over from `df_away`. -/
structure ARow where
  date : ℕ
  home_team : String
  away_team : String
  away_sh : ℚ
  away_shot_on_target : ℚ
  away_dist_covered : ℚ
  away_poss : ℚ
deriving DecidableEq, Repr, Inhabited

/-- A merged fixture row: the home row enriched with the away-side
statistics. -/
structure MRow extends HRow where
  away_sh : ℚ
  away_shot_on_target : ℚ
  away_dist_covered : ℚ
  away_poss : ℚ
deriving DecidableEq, Repr, Inhabited

/-- Key agreement for the merge `on=['date', 'home_team', 'away_team']`. -/
def keyMatch (h : HRow) (a : ARow) : Bool :=
  a.date == h.date && a.home_team == h.home_team && a.away_team == h.away_team

/-- Combine a home row with a matching away-statistics row. -/
def combineRow (h : HRow) (a : ARow) : MRow :=
  { toHRow := h
    away_sh := a.away_sh
    away_shot_on_target := a.away_shot_on_target
    away_dist_covered := a.away_dist_covered
    away_poss := a.away_poss }

/-- `pd.merge(df_home, away_stats_to_add, on=['date','home_team',
'away_team'])` with the default `how='inner'`: every home row paired with
every away row agreeing on the key, left rows in order, matches in
right-table order. -/
def mergeHomeAway (hs : List HRow) (aws : List ARow) : List MRow :=
  hs.flatMap (fun h => (aws.filter (keyMatch h)).map (combineRow h))

/-- A concrete fixture row for witnesses: date, teams, signed result and
goals vary, the remaining statistics are fixed small rationals. -/
def sampleRow (d : ℕ) (ht aw : String) (res : Int) (hg ag : ℚ) : Row where
  date := d
  time := "15:00"
  round := "Matchweek 1"
  home_team := ht
  away_team := aw
  venue := "Home"
  result := res
  home_goals := hg
  away_goals := ag
  home_poss := 60
  away_poss := 40
  home_xg := 2
  away_xg := 1
  home_sh := 10
  away_sh := 8
  home_shot_on_target := 4
  away_shot_on_target := 3
  season := 2021

/-- Three fixtures: team A at home on dates 1 and 3, away on date 2. -/
def exDf : List Row :=
  [sampleRow 1 "A" "B" 1 2 0,
   sampleRow 2 "B" "A" 0 1 1,
   sampleRow 3 "A" "B" (-1) 0 3]

/-- Two enriched rows: one with both form values present and one with a
missing away side, for the comparison-feature witness. -/
def exEDf : List ERow :=
  [{ toRow := sampleRow 4 "A" "B" 1 2 0
     home_stats := { form := some 1, goals := some 2, xg := some (3/2), poss := some 55, goals_conceded := some 1 }
     away_stats := { form := some (2/5), goals := some 1, xg := some 1, poss := some 45, goals_conceded := some 2 } },
   { toRow := sampleRow 5 "C" "D" 0 1 1
     home_stats := { form := some 1 }
     away_stats := {} }]

/-- A raw row with a valid label and one with an invalid label. -/
def exRawRow (res : String) : RawRow where
  date := "2020-09-12"
  time := "12:30"
  round := "Matchweek 1"
  home_team := "A"
  away_team := "B"
  venue := "Home"
  result := res
  home_goals := 3
  away_goals := 0
  home_poss := 60
  away_poss := 40
  home_xg := 2
  away_xg := 1
  home_sh := 10
  away_sh := 8
  home_shot_on_target := 4
  away_shot_on_target := 3
  season := 2021

/-- A small already-raw table: the two team columns and one numeric
column. -/
def exTable : Table :=
  [("home_team", [Val.str "A", Val.str "B"]),
   ("away_team", [Val.str "B", Val.str "A"]),
   ("x", [Val.num 1, Val.num 2])]

/-! ### Home/away inner merge in preprocessing -/

/-- The merge key of an away-statistics row. -/
def aKey (a : ARow) : ℕ × String × String :=
  (a.date, a.home_team, a.away_team)

/-- A home-venue row for the merge witness. -/
def exHRow (d : ℕ) : HRow where
  date := d
  time := "15:00"
  round := "Matchweek 1"
  home_team := "A"
  away_team := "B"
  venue := "Home"
  home_goals := 2
  away_goals := 0
  result := "W"
  home_formation := "4-4-2"
  away_formation := "4-3-3"
  home_poss := 60
  home_xg := 2
  away_xg := 1
  home_sh := 10
  home_shot_on_target := 4
  home_dist_covered := 100
  season := 2021

/-- The matching away-statistics row for date 1. -/
def exARow : ARow where
  date := 1
  home_team := "A"
  away_team := "B"
  away_sh := 8
  away_shot_on_target := 3
  away_dist_covered := 95
  away_poss := 40

/-! ### Fixture feature joiner (claims C3, C4) and frame effects (C8) -/

/-- Team A plays at home on dates 1 and 2 and away on date 2: its rolling
sequence has two records dated 2, carrying different rolling values. -/
def exDfC3 : List Row :=
  [sampleRow 1 "A" "B" 1 2 0,
   sampleRow 2 "A" "C" (-1) 0 1,
   sampleRow 2 "D" "A" 1 3 0]

/-- Team B appears only as the away team, in two fixtures. -/
def exDfC4 : List Row :=
  [sampleRow 1 "A" "B" 1 2 0,
   sampleRow 2 "A" "B" (-1) 0 1]

/-! ### Lemmas and claim theorems -/

/-! ### Basic facts about the rolling calculator -/

lemma rollingMean5_length (xs : List ℚ) : (rollingMean5 xs).length = xs.length := by
  simp [rollingMean5]

lemma rollingMean5_ne_nil (x : ℚ) (t : List ℚ) : rollingMean5 (x :: t) ≠ [] := by
  intro h
  have := rollingMean5_length (x :: t)
  rw [h] at this
  simp at this

lemma shift1_eq_cons (ys : List ℚ) (h : ys ≠ []) :
    shift1 ys = none :: ys.dropLast.map some := by
  cases ys with
  | nil => exact absurd rfl h
  | cons y t => rfl

lemma rollingMean5_getElem (xs : List ℚ) (k : ℕ) (hk : k < (rollingMean5 xs).length) :
    (rollingMean5 xs).get ⟨k, hk⟩ = listMean ((xs.take (k + 1)).drop (k + 1 - 5)) := by
  simp [rollingMean5, List.get_eq_getElem]

lemma rollingLast5_getD_zero (xs : List ℚ) :
    (rollingLast5 xs).getD 0 none = none := by
  cases xs with
  | nil => rfl
  | cons x t =>
    rw [rollingLast5, shift1_eq_cons _ (rollingMean5_ne_nil x t)]
    rfl

lemma rollingLast5_getD (xs : List ℚ) (i : ℕ) (h1 : 1 ≤ i) (h2 : i < xs.length) :
    (rollingLast5 xs).getD i none = some (listMean ((xs.take i).drop (i - 5))) := by
  obtain ⟨k, rfl⟩ : ∃ k, i = k + 1 := ⟨i - 1, (Nat.succ_pred_eq_of_pos h1).symm⟩
  have hxs : xs ≠ [] := by
    intro e
    rw [e] at h2
    simp at h2
  have hmean : rollingMean5 xs ≠ [] := by
    intro e
    have := rollingMean5_length xs
    rw [e] at this
    exact hxs (List.length_eq_zero.mp this.symm)
  rw [rollingLast5, shift1_eq_cons _ hmean]
  show ((rollingMean5 xs).dropLast.map some).getD k none = _
  have hk : k < ((rollingMean5 xs).dropLast.map some).length := by
    simp [List.length_dropLast, rollingMean5_length]
    omega
  rw [List.getD_eq_get _ _ hk, List.get_map]
  have hk2 : k < (rollingMean5 xs).length := by
    simp [rollingMean5_length]
    omega
  have hdl : (rollingMean5 xs).dropLast.get ⟨k, by simpa using hk⟩ =
      (rollingMean5 xs).get ⟨k, hk2⟩ := by
    simp [List.get_eq_getElem, List.getElem_dropLast]
  rw [hdl, rollingMean5_getElem]

lemma statsAt_zero (recs : List TeamRec) : statsAt recs 0 = {} := by
  unfold statsAt
  rw [rollingLast5_getD_zero, rollingLast5_getD_zero, rollingLast5_getD_zero,
    rollingLast5_getD_zero, rollingLast5_getD_zero, rollingLast5_getD_zero,
    rollingLast5_getD_zero, rollingLast5_getD_zero]

lemma attachRolling_length (recs : List TeamRec) :
    (attachRolling recs).length = recs.length := by
  simp [attachRolling]

lemma attachRolling_getD (recs : List TeamRec) (i : ℕ) (h : i < recs.length)
    (d : TeamRec × RollingStats) :
    (attachRolling recs).getD i d = (recs.get ⟨i, h⟩, statsAt recs i) := by
  have hlen : i < (attachRolling recs).length := by
    rw [attachRolling_length]; exact h
  rw [List.getD_eq_get _ _ hlen]
  simp [attachRolling, List.get_eq_getElem]

lemma statsAt_pos (recs : List TeamRec) (i : ℕ) (h1 : 1 ≤ i) (h2 : i < recs.length) :
    statsAt recs i =
      { form := some (listMean ((((recs.take i).drop (i - 5)).map (fun r => (r.result : ℚ)))))
        goals := some (listMean (((recs.take i).drop (i - 5)).map TeamRec.team_goals))
        goals_conceded := some (listMean (((recs.take i).drop (i - 5)).map TeamRec.team_goals_conceded))
        xg := some (listMean (((recs.take i).drop (i - 5)).map TeamRec.team_xg))
        xg_conceded := some (listMean (((recs.take i).drop (i - 5)).map TeamRec.team_xg_conceded))
        poss := some (listMean (((recs.take i).drop (i - 5)).map TeamRec.team_poss))
        shots := some (listMean (((recs.take i).drop (i - 5)).map TeamRec.team_shots))
        shots_on_target := some (listMean (((recs.take i).drop (i - 5)).map TeamRec.team_shots_on_target)) } := by
  have hwin : ∀ f : TeamRec → ℚ,
      (rollingLast5 (recs.map f)).getD i none =
        some (listMean (((recs.take i).drop (i - 5)).map f)) := by
    intro f
    rw [rollingLast5_getD (recs.map f) i h1 (by simpa using h2)]
    rw [← List.map_take, ← List.map_drop]
  simp only [statsAt, hwin]

/-- C1: for every team and every index `i ≥ 1` in its date-ordered match
sequence, each of the eight rolling statistics attached at index `i` is the
arithmetic mean of the team's own value of that statistic over the records
at indices `max(0, i-5) .. i-1` (in ℕ, `i - 5` is exactly `max(0, i-5)`),
never including the record at `i` itself. -/
theorem rolling_no_leakage (df : List Row) (team : String) (i : ℕ)
    (h1 : 1 ≤ i) (h2 : i < (teamGames team df).length) :
    ((attachRolling (teamGames team df)).getD i default).2 =
      { form := some (listMean (((((teamGames team df).take i).drop (i - 5)).map (fun r => (r.result : ℚ)))))
        goals := some (listMean ((((teamGames team df).take i).drop (i - 5)).map TeamRec.team_goals))
        goals_conceded := some (listMean ((((teamGames team df).take i).drop (i - 5)).map TeamRec.team_goals_conceded))
        xg := some (listMean ((((teamGames team df).take i).drop (i - 5)).map TeamRec.team_xg))
        xg_conceded := some (listMean ((((teamGames team df).take i).drop (i - 5)).map TeamRec.team_xg_conceded))
        poss := some (listMean ((((teamGames team df).take i).drop (i - 5)).map TeamRec.team_poss))
        shots := some (listMean ((((teamGames team df).take i).drop (i - 5)).map TeamRec.team_shots))
        shots_on_target := some (listMean ((((teamGames team df).take i).drop (i - 5)).map TeamRec.team_shots_on_target)) } := by
  rw [attachRolling_getD (teamGames team df) i h2 default]
  exact statsAt_pos (teamGames team df) i h1 h2

/-- C2: every rolling statistic attached to a team's first chronological
match (index 0 of its date-ordered sequence) is missing. -/
theorem first_match_stats_missing (df : List Row) (team : String)
    (h : teamGames team df ≠ []) :
    ((attachRolling (teamGames team df)).getD 0 default).2 = ({} : RollingStats) := by
  rw [attachRolling_getD (teamGames team df) 0 (List.length_pos.mpr h) default]
  exact statsAt_zero (teamGames team df)

/-- Witness for C1 at the concrete fixture list `exDf`, team A, index 1. -/
theorem rolling_no_leakage_witness :
    (1 ≤ 1 ∧ 1 < (teamGames "A" exDf).length) ∧
    ((attachRolling (teamGames "A" exDf)).getD 1 default).2 =
      { form := some (listMean (((((teamGames "A" exDf).take 1).drop (1 - 5)).map (fun r => (r.result : ℚ)))))
        goals := some (listMean ((((teamGames "A" exDf).take 1).drop (1 - 5)).map TeamRec.team_goals))
        goals_conceded := some (listMean ((((teamGames "A" exDf).take 1).drop (1 - 5)).map TeamRec.team_goals_conceded))
        xg := some (listMean ((((teamGames "A" exDf).take 1).drop (1 - 5)).map TeamRec.team_xg))
        xg_conceded := some (listMean ((((teamGames "A" exDf).take 1).drop (1 - 5)).map TeamRec.team_xg_conceded))
        poss := some (listMean ((((teamGames "A" exDf).take 1).drop (1 - 5)).map TeamRec.team_poss))
        shots := some (listMean ((((teamGames "A" exDf).take 1).drop (1 - 5)).map TeamRec.team_shots))
        shots_on_target := some (listMean ((((teamGames "A" exDf).take 1).drop (1 - 5)).map TeamRec.team_shots_on_target)) } :=
  ⟨⟨Nat.le_refl 1, by decide⟩, rolling_no_leakage exDf "A" 1 (Nat.le_refl 1) (by decide)⟩

/-- Witness for C2 at the concrete fixture list `exDf`, team A. -/
theorem first_match_stats_missing_witness :
    teamGames "A" exDf ≠ [] ∧
    ((attachRolling (teamGames "A" exDf)).getD 0 default).2 = ({} : RollingStats) :=
  ⟨by decide, first_match_stats_missing exDf "A" (by decide)⟩

/-! ### Comparison feature generator -/

lemma osub_some (a b : ℚ) : osub (some a) (some b) = some (a - b) := rfl

lemma osub_eq_none (x y : Option ℚ) (h : x = none ∨ y = none) : osub x y = none := by
  rcases h with h | h
  · subst h
    rfl
  · subst h
    cases x <;> rfl

lemma createComparisonFeatures_length (df : List ERow) :
    (createComparisonFeatures df).length = df.length := by
  simp [createComparisonFeatures]

lemma createComparisonFeatures_getD (df : List ERow) (j : ℕ) (hj : j < df.length) :
    (createComparisonFeatures df).getD j default =
      { toERow := df.getD j default
        form_difference :=
          osub (df.getD j default).home_stats.form (df.getD j default).away_stats.form
        goals_difference :=
          osub (df.getD j default).home_stats.goals (df.getD j default).away_stats.goals
        xg_difference :=
          osub (df.getD j default).home_stats.xg (df.getD j default).away_stats.xg
        poss_difference :=
          osub (df.getD j default).home_stats.poss (df.getD j default).away_stats.poss
        defensive_difference :=
          osub (df.getD j default).away_stats.goals_conceded
            (df.getD j default).home_stats.goals_conceded } := by
  have hlen : j < (createComparisonFeatures df).length := by
    rw [createComparisonFeatures_length]; exact hj
  rw [List.getD_eq_get _ _ hlen, List.getD_eq_get _ _ hj]
  simp [createComparisonFeatures, List.get_eq_getElem]

/-- C5: each enriched fixture row receives exactly the five difference
columns — form, goals, xg and possession as home minus away, defensive as
away conceded minus home conceded — each present exactly when both of its
operands are present (no imputation), and the underlying row is kept. -/
theorem comparison_differences (df : List ERow) (j : ℕ) (hj : j < df.length) :
    let r := df.getD j default
    let out := (createComparisonFeatures df).getD j default
    out.toERow = r ∧
    (∀ a b, r.home_stats.form = some a → r.away_stats.form = some b →
      out.form_difference = some (a - b)) ∧
    (r.home_stats.form = none ∨ r.away_stats.form = none →
      out.form_difference = none) ∧
    (∀ a b, r.home_stats.goals = some a → r.away_stats.goals = some b →
      out.goals_difference = some (a - b)) ∧
    (r.home_stats.goals = none ∨ r.away_stats.goals = none →
      out.goals_difference = none) ∧
    (∀ a b, r.home_stats.xg = some a → r.away_stats.xg = some b →
      out.xg_difference = some (a - b)) ∧
    (r.home_stats.xg = none ∨ r.away_stats.xg = none →
      out.xg_difference = none) ∧
    (∀ a b, r.home_stats.poss = some a → r.away_stats.poss = some b →
      out.poss_difference = some (a - b)) ∧
    (r.home_stats.poss = none ∨ r.away_stats.poss = none →
      out.poss_difference = none) ∧
    (∀ a b, r.away_stats.goals_conceded = some a → r.home_stats.goals_conceded = some b →
      out.defensive_difference = some (a - b)) ∧
    (r.away_stats.goals_conceded = none ∨ r.home_stats.goals_conceded = none →
      out.defensive_difference = none) := by
  intro r out
  have hout := createComparisonFeatures_getD df j hj
  refine ⟨?_, ?_, ?_, ?_, ?_, ?_, ?_, ?_, ?_, ?_, ?_⟩
  · show ((createComparisonFeatures df).getD j default).toERow = _
    rw [hout]
  · intro a b ha hb
    show ((createComparisonFeatures df).getD j default).form_difference = _
    rw [hout]
    show osub r.home_stats.form r.away_stats.form = _
    rw [ha, hb, osub_some]
  · intro h
    show ((createComparisonFeatures df).getD j default).form_difference = _
    rw [hout]
    exact osub_eq_none _ _ h
  · intro a b ha hb
    show ((createComparisonFeatures df).getD j default).goals_difference = _
    rw [hout]
    show osub r.home_stats.goals r.away_stats.goals = _
    rw [ha, hb, osub_some]
  · intro h
    show ((createComparisonFeatures df).getD j default).goals_difference = _
    rw [hout]
    exact osub_eq_none _ _ h
  · intro a b ha hb
    show ((createComparisonFeatures df).getD j default).xg_difference = _
    rw [hout]
    show osub r.home_stats.xg r.away_stats.xg = _
    rw [ha, hb, osub_some]
  · intro h
    show ((createComparisonFeatures df).getD j default).xg_difference = _
    rw [hout]
    exact osub_eq_none _ _ h
  · intro a b ha hb
    show ((createComparisonFeatures df).getD j default).poss_difference = _
    rw [hout]
    show osub r.home_stats.poss r.away_stats.poss = _
    rw [ha, hb, osub_some]
  · intro h
    show ((createComparisonFeatures df).getD j default).poss_difference = _
    rw [hout]
    exact osub_eq_none _ _ h
  · intro a b ha hb
    show ((createComparisonFeatures df).getD j default).defensive_difference = _
    rw [hout]
    show osub r.away_stats.goals_conceded r.home_stats.goals_conceded = _
    rw [ha, hb, osub_some]
  · intro h
    show ((createComparisonFeatures df).getD j default).defensive_difference = _
    rw [hout]
    exact osub_eq_none _ _ h

/-- Witness for C5 at row 0 of `exEDf`. -/
theorem comparison_differences_witness :
    0 < exEDf.length ∧
    (let r := exEDf.getD 0 default
     let out := (createComparisonFeatures exEDf).getD 0 default
     out.toERow = r ∧
     (∀ a b, r.home_stats.form = some a → r.away_stats.form = some b →
       out.form_difference = some (a - b)) ∧
     (r.home_stats.form = none ∨ r.away_stats.form = none →
       out.form_difference = none) ∧
     (∀ a b, r.home_stats.goals = some a → r.away_stats.goals = some b →
       out.goals_difference = some (a - b)) ∧
     (r.home_stats.goals = none ∨ r.away_stats.goals = none →
       out.goals_difference = none) ∧
     (∀ a b, r.home_stats.xg = some a → r.away_stats.xg = some b →
       out.xg_difference = some (a - b)) ∧
     (r.home_stats.xg = none ∨ r.away_stats.xg = none →
       out.xg_difference = none) ∧
     (∀ a b, r.home_stats.poss = some a → r.away_stats.poss = some b →
       out.poss_difference = some (a - b)) ∧
     (r.home_stats.poss = none ∨ r.away_stats.poss = none →
       out.poss_difference = none) ∧
     (∀ a b, r.away_stats.goals_conceded = some a → r.home_stats.goals_conceded = some b →
       out.defensive_difference = some (a - b)) ∧
     (r.away_stats.goals_conceded = none ∨ r.home_stats.goals_conceded = none →
       out.defensive_difference = none)) :=
  ⟨by decide, comparison_differences exEDf 0 (by decide)⟩

/-! ### Fixture normalizer -/

/-- C7: the normalizer maps the outcome labels W, D, L (home-team
perspective) to +1, 0, -1, copying every field other than the outcome and
the parsed date; any other label makes the row (and hence the table run)
fail with the unrecognized-outcome error. -/
theorem normalizer_outcome_map (parseDate : String → ℕ) :
    (∀ r : RawRow,
      (r.result = "W" → prepareRow parseDate r = .ok
        { date := parseDate r.date, time := r.time, round := r.round
          home_team := r.home_team, away_team := r.away_team, venue := r.venue
          result := 1
          home_goals := r.home_goals, away_goals := r.away_goals
          home_poss := r.home_poss, away_poss := r.away_poss
          home_xg := r.home_xg, away_xg := r.away_xg
          home_sh := r.home_sh, away_sh := r.away_sh
          home_shot_on_target := r.home_shot_on_target
          away_shot_on_target := r.away_shot_on_target
          season := r.season }) ∧
      (r.result = "D" → prepareRow parseDate r = .ok
        { date := parseDate r.date, time := r.time, round := r.round
          home_team := r.home_team, away_team := r.away_team, venue := r.venue
          result := 0
          home_goals := r.home_goals, away_goals := r.away_goals
          home_poss := r.home_poss, away_poss := r.away_poss
          home_xg := r.home_xg, away_xg := r.away_xg
          home_sh := r.home_sh, away_sh := r.away_sh
          home_shot_on_target := r.home_shot_on_target
          away_shot_on_target := r.away_shot_on_target
          season := r.season }) ∧
      (r.result = "L" → prepareRow parseDate r = .ok
        { date := parseDate r.date, time := r.time, round := r.round
          home_team := r.home_team, away_team := r.away_team, venue := r.venue
          result := -1
          home_goals := r.home_goals, away_goals := r.away_goals
          home_poss := r.home_poss, away_poss := r.away_poss
          home_xg := r.home_xg, away_xg := r.away_xg
          home_sh := r.home_sh, away_sh := r.away_sh
          home_shot_on_target := r.home_shot_on_target
          away_shot_on_target := r.away_shot_on_target
          season := r.season }) ∧
      (r.result ≠ "W" → r.result ≠ "D" → r.result ≠ "L" →
        prepareRow parseDate r = .error "UnrecognizedOutcome")) ∧
    (∀ rows : List RawRow,
      (∃ r ∈ rows, r.result ≠ "W" ∧ r.result ≠ "D" ∧ r.result ≠ "L") →
      ∃ e, loadAndPrepare parseDate rows = .error e) := by
  constructor
  · intro r
    refine ⟨?_, ?_, ?_, ?_⟩
    · intro h
      simp [prepareRow, resultsMap, h]
    · intro h
      simp [prepareRow, resultsMap, h]
    · intro h
      simp [prepareRow, resultsMap, h]
    · intro h1 h2 h3
      simp [prepareRow, resultsMap, h1, h2, h3]
  · intro rows
    induction rows with
    | nil => rintro ⟨r, hr, -⟩; cases hr
    | cons x t ih =>
      rintro ⟨r, hr, hbad⟩
      rcases List.mem_cons.mp hr with rfl | hrt
      · refine ⟨"UnrecognizedOutcome", ?_⟩
        have hx : prepareRow parseDate r = .error "UnrecognizedOutcome" := by
          simp [prepareRow, resultsMap, hbad.1, hbad.2.1, hbad.2.2]
        simp [loadAndPrepare, hx]
      · obtain ⟨e, he⟩ := ih ⟨r, hrt, hbad⟩
        cases hx : prepareRow parseDate x with
        | error e2 => exact ⟨e2, by simp [loadAndPrepare, hx]⟩
        | ok y => exact ⟨e, by simp [loadAndPrepare, hx, he, Except.map]⟩

/-! ### Data cleaner -/

/-- Evaluation of `clean_data` with the default drop list: the result is
always `ok`, and it is the input minus every column named `season`,
`home_formation` or `away_formaation`. -/
lemma cleanData_default_filter (t : Table) :
    cleanData t none = .ok (t.filter (fun c =>
      !(c.1 == "season" || c.1 == "home_formation" || c.1 == "away_formaation"))) := by
  show (if ((["season", "home_formation", "away_formaation"].filter
        (fun c => (t.map Prod.fst).contains c)).isEmpty = true) then Except.ok t
      else dropCols t (["season", "home_formation", "away_formaation"].filter
        (fun c => (t.map Prod.fst).contains c))) = _
  by_cases hempty :
      ((["season", "home_formation", "away_formaation"].filter
        (fun c => (t.map Prod.fst).contains c)).isEmpty = true)
  · rw [if_pos hempty]
    have habs : ∀ s ∈ (["season", "home_formation", "away_formaation"] : List String),
        ¬ ((t.map Prod.fst).contains s = true) := by
      rw [List.isEmpty_iff, List.filter_eq_nil_iff] at hempty
      exact hempty
    have hkeep : ∀ c ∈ t,
        (!(c.1 == "season" || c.1 == "home_formation" || c.1 == "away_formaation")) = true := by
      intro c hc
      have hin : c.1 ∈ t.map Prod.fst := List.mem_map.mpr ⟨c, hc, rfl⟩
      have hnd : c.1 ∉ (["season", "home_formation", "away_formaation"] : List String) := by
        intro hmemdrop
        exact habs _ hmemdrop (by simpa [List.contains, List.elem_iff] using hin)
      simp only [List.mem_cons, List.not_mem_nil, or_false, not_or] at hnd
      simp [hnd.1, hnd.2.1, hnd.2.2]
    rw [(List.filter_eq_self).mpr hkeep]
  · rw [if_neg hempty]
    unfold dropCols
    rw [if_pos]
    · congr 1
      apply List.filter_congr
      intro c hc
      have hin : c.1 ∈ t.map Prod.fst := List.mem_map.mpr ⟨c, hc, rfl⟩
      congr 1
      rw [Bool.eq_iff_iff]
      simp only [List.contains, List.elem_iff, List.mem_filter, List.mem_cons,
        List.not_mem_nil, or_false, Bool.or_eq_true, beq_iff_eq, hin, and_true]
      tauto
    · rw [List.all_eq_true]
      intro s hs
      exact (List.mem_filter.mp hs).2

/-- C9: `clean_data` with `columns_to_drop = None` removes exactly the
columns named `season`, `home_formation` and `away_formaation` (the
misspelling is the source's: a column named `away_formation` is never
dropped by default), never raises when any of them is absent, and keeps
every other column unchanged. -/
theorem clean_default_drops (t : Table) :
    cleanData t none = .ok (t.filter (fun c =>
      !(c.1 == "season" || c.1 == "home_formation" || c.1 == "away_formaation"))) :=
  cleanData_default_filter t

/-! ### Categorical encoder -/

lemma getCol_append_of_isSome (u v : Table) (n : String)
    (h : (getCol u n).isSome) : getCol (u ++ v) n = getCol u n := by
  unfold getCol at h ⊢
  rw [List.filter_append]
  cases hu : u.filter (fun c => c.1 == n) with
  | nil => rw [hu] at h; simp at h
  | cons x xs => rfl

lemma getCol_append_of_none (u v : Table) (n : String)
    (h : getCol u n = none) : getCol (u ++ v) n = getCol v n := by
  unfold getCol at h ⊢
  rw [List.filter_append]
  cases hu : u.filter (fun c => c.1 == n) with
  | nil => rfl
  | cons x xs => rw [hu] at h; simp at h

lemma getCol_none_of_append_none (u v : Table) (n : String)
    (h : getCol (u ++ v) n = none) : getCol u n = none ∧ getCol v n = none := by
  unfold getCol at h ⊢
  rw [List.filter_append] at h
  have hnil : (u.filter (fun c => c.1 == n)) ++ (v.filter (fun c => c.1 == n)) = [] := by
    cases hx : (u.filter (fun c => c.1 == n)) ++ (v.filter (fun c => c.1 == n)) with
    | nil => rfl
    | cons y ys => rw [hx] at h; simp at h
  rcases List.append_eq_nil.mp hnil with ⟨h1, h2⟩
  rw [h1, h2]
  exact ⟨rfl, rfl⟩

/-- Counterexample to C6: encoding an already-encoded table again is not
the identity — the second application appends a duplicate copy of each
indicator column (7 columns become 11), so the encoder is not idempotent. -/
theorem encode_idempotence_counterexample :
    encodeTeams (encodeTeams exTable) ≠ encodeTeams exTable ∧
    (encodeTeams exTable).length = 7 ∧
    (encodeTeams (encodeTeams exTable)).length = 11 := by decide

/-- C6 amended: re-applying the encoder to an encoded table (one that still
has its `home_team`/`away_team` columns) appends a second copy of every
indicator column; reading any column by name (first occurrence) is
unchanged, but the table itself is not — encoding is not idempotent. -/
theorem encode_reapply_appends (t : Table)
    (hh : (getCol t "home_team").isSome) (ha : (getCol t "away_team").isSome) :
    encodeTeams (encodeTeams t) = encodeTeams t ++ dummyCols t ∧
    (∀ n, getCol (encodeTeams (encodeTeams t)) n = getCol (encodeTeams t) n) := by
  have h1 : getCol (t ++ dummyCols t) "home_team" = getCol t "home_team" :=
    getCol_append_of_isSome t (dummyCols t) "home_team" hh
  have h2 : getCol (t ++ dummyCols t) "away_team" = getCol t "away_team" :=
    getCol_append_of_isSome t (dummyCols t) "away_team" ha
  have hD : dummyCols (encodeTeams t) = dummyCols t := by
    show ((match getCol (t ++ dummyCols t) "home_team" with
           | some col => mkDummies "home_" col
           | none => []) ++
          (match getCol (t ++ dummyCols t) "away_team" with
           | some col => mkDummies "away_" col
           | none => [])) = dummyCols t
    rw [h1, h2]
    rfl
  constructor
  · show encodeTeams t ++ dummyCols (encodeTeams t) = encodeTeams t ++ dummyCols t
    rw [hD]
  · intro n
    by_cases hsome : (getCol (encodeTeams t) n).isSome
    · exact getCol_append_of_isSome (encodeTeams t) (dummyCols (encodeTeams t)) n hsome
    · have hnone : getCol (encodeTeams t) n = none := by
        cases hx : getCol (encodeTeams t) n with
        | none => rfl
        | some c => rw [hx] at hsome; simp at hsome
      have hDnone : getCol (dummyCols t) n = none :=
        (getCol_none_of_append_none t (dummyCols t) n hnone).2
      rw [hnone]
      show getCol (encodeTeams t ++ dummyCols (encodeTeams t)) n = none
      rw [getCol_append_of_none (encodeTeams t) _ n hnone, hD]
      exact hDnone

/-- Witness for C6 amended, at the concrete table `exTable`. -/
theorem encode_reapply_appends_witness :
    ((getCol exTable "home_team").isSome ∧ (getCol exTable "away_team").isSome) ∧
    (encodeTeams (encodeTeams exTable) = encodeTeams exTable ++ dummyCols exTable ∧
     (∀ n, getCol (encodeTeams (encodeTeams exTable)) n = getCol (encodeTeams exTable) n)) :=
  ⟨⟨by decide, by decide⟩, encode_reapply_appends exTable (by decide) (by decide)⟩

lemma filter_eq_find_toList {α κ : Type} (p : α → Bool) (k : α → κ) (K0 : κ)
    (hp : ∀ a, p a = true → k a = K0) :
    ∀ l : List α, (l.map k).Nodup → l.filter p = (l.find? p).toList := by
  intro l
  induction l with
  | nil => intro _; rfl
  | cons x t ih =>
    intro hnd
    rw [List.map_cons, List.nodup_cons] at hnd
    by_cases hx : p x = true
    · rw [List.filter_cons_of_pos hx, List.find?_cons_of_pos _ hx]
      have ht : t.filter p = [] := by
        rw [List.filter_eq_nil_iff]
        intro a ha hpa
        exact hnd.1 (List.mem_map.mpr ⟨a, ha, (hp a hpa).trans (hp x hx).symm⟩)
      rw [ht]
      rfl
    · rw [List.filter_cons_of_neg (by simpa using hx), List.find?_cons_of_neg _ (by simpa using hx)]
      exact ih hnd.2

lemma length_filterMap_isSome {α β : Type} (g : α → Option β) :
    ∀ l : List α, (l.filterMap g).length = (l.filter (fun a => (g a).isSome)).length := by
  intro l
  induction l with
  | nil => rfl
  | cons x t ih =>
    cases hx : g x with
    | none => simp [List.filterMap_cons, hx, ih]
    | some b => simp [List.filterMap_cons, hx, ih]

lemma keyMatch_key (h : HRow) (a : ARow) (hm : keyMatch h a = true) :
    aKey a = (h.date, h.home_team, h.away_team) := by
  have := hm
  simp only [keyMatch, Bool.and_eq_true, beq_iff_eq] at this
  simp [aKey, this.1.1, this.1.2, this.2]

/-- C10: with key-distinct away rows (the data-model invariant: one fixture
per (date, home, away)), the home/away merge is the inner join — exactly
one output row per home row that finds a matching away row, unmatched home
rows silently dropped, no error path. -/
theorem merge_inner_unique (hs : List HRow) (aws : List ARow)
    (huniq : (aws.map aKey).Nodup) :
    mergeHomeAway hs aws =
      hs.filterMap (fun h => (aws.find? (keyMatch h)).map (combineRow h)) ∧
    (mergeHomeAway hs aws).length =
      (hs.filter (fun h => (aws.find? (keyMatch h)).isSome)).length := by
  have hsingle : ∀ h : HRow, aws.filter (keyMatch h) = (aws.find? (keyMatch h)).toList :=
    fun h => filter_eq_find_toList (keyMatch h) aKey (h.date, h.home_team, h.away_team)
      (keyMatch_key h) aws huniq
  have hmain : mergeHomeAway hs aws =
      hs.filterMap (fun h => (aws.find? (keyMatch h)).map (combineRow h)) := by
    induction hs with
    | nil => rfl
    | cons h t ih =>
      rw [mergeHomeAway, List.flatMap_cons, List.filterMap_cons]
      rw [mergeHomeAway] at ih
      rw [ih, hsingle h]
      cases aws.find? (keyMatch h) with
      | none => rfl
      | some a => rfl
  refine ⟨hmain, ?_⟩
  rw [hmain, length_filterMap_isSome]
  have hfun : (fun h : HRow => ((aws.find? (keyMatch h)).map (combineRow h)).isSome) =
      (fun h : HRow => (aws.find? (keyMatch h)).isSome) := by
    funext h
    cases aws.find? (keyMatch h) <;> rfl
  rw [hfun]

/-- Witness for C10: home rows on dates 1 and 2, away statistics only for
date 1 — the merge keeps exactly the matched row and drops the other. -/
theorem merge_inner_unique_witness :
    ([exARow].map aKey).Nodup ∧
    (mergeHomeAway [exHRow 1, exHRow 2] [exARow] =
      [exHRow 1, exHRow 2].filterMap
        (fun h => ([exARow].find? (keyMatch h)).map (combineRow h)) ∧
     (mergeHomeAway [exHRow 1, exHRow 2] [exARow]).length =
      ([exHRow 1, exHRow 2].filter
        (fun h => ([exARow].find? (keyMatch h)).isSome)).length) :=
  ⟨by decide, merge_inner_unique [exHRow 1, exHRow 2] [exARow] (by decide)⟩

/-! ### The per-team write-back loop of create_rolling_features -/

lemma updateRow_spec (t : String) (g : List (TeamRec × RollingStats)) (r : ERow) :
    (updateRow t g r).toRow = r.toRow ∧
    (updateRow t g r).home_stats =
      (if r.home_team = t then (lookupStats g r.date).getD r.home_stats
       else r.home_stats) ∧
    (updateRow t g r).away_stats =
      (if r.away_team = t then (lookupStats g r.date).getD r.away_stats
       else r.away_stats) := by
  by_cases h1 : r.home_team = t <;> by_cases h2 : r.away_team = t <;>
    cases hl : lookupStats g r.date <;>
      simp [updateRow, updateAway, updateHome, setHome, setAway, h1, h2, hl]

lemma applyTeam_length (t : String) (rows : List ERow) :
    (applyTeam t rows).length = rows.length := by
  simp [applyTeam]

lemma applyTeam_getD (t : String) (rows : List ERow) (j : ℕ) (d : ERow)
    (hj : j < rows.length) :
    (applyTeam t rows).getD j d =
      updateRow t (gamesFor t (rows.map ERow.toRow)) (rows.getD j d) := by
  have h1 : j < (applyTeam t rows).length := by
    rw [applyTeam_length]; exact hj
  rw [List.getD_eq_get _ _ h1, List.getD_eq_get _ _ hj]
  simp [applyTeam, List.get_eq_getElem]

lemma applyTeam_map_toRow (t : String) (rows : List ERow) :
    (applyTeam t rows).map ERow.toRow = rows.map ERow.toRow := by
  unfold applyTeam
  rw [List.map_map]
  apply List.map_congr_left
  intro r _
  exact (updateRow_spec t (gamesFor t (rows.map ERow.toRow)) r).1

lemma stepTeams_spec (df : List Row) (ts : List String) (hnd : ts.Nodup) :
    ∀ (rows : List ERow), rows.map ERow.toRow = df →
    ∀ (j : ℕ), j < rows.length → ∀ (d : ERow),
    ((stepTeams ts rows).getD j d).toRow = (rows.getD j d).toRow ∧
    ((stepTeams ts rows).getD j d).home_stats =
      (if (rows.getD j d).home_team ∈ ts
       then (lookupStats (gamesFor (rows.getD j d).home_team df)
         (rows.getD j d).date).getD (rows.getD j d).home_stats
       else (rows.getD j d).home_stats) ∧
    ((stepTeams ts rows).getD j d).away_stats =
      (if (rows.getD j d).away_team ∈ ts
       then (lookupStats (gamesFor (rows.getD j d).away_team df)
         (rows.getD j d).date).getD (rows.getD j d).away_stats
       else (rows.getD j d).away_stats) := by
  induction ts with
  | nil =>
    intro rows hmap j hj d
    refine ⟨rfl, ?_, ?_⟩ <;> simp [stepTeams]
  | cons t ts ih =>
    intro rows hmap j hj d
    obtain ⟨ht, hts⟩ := List.nodup_cons.mp hnd
    have hmap' : (applyTeam t rows).map ERow.toRow = df :=
      (applyTeam_map_toRow t rows).trans hmap
    have hj' : j < (applyTeam t rows).length := by
      rw [applyTeam_length]; exact hj
    have hrow : (applyTeam t rows).getD j d =
        updateRow t (gamesFor t df) (rows.getD j d) := by
      rw [applyTeam_getD t rows j d hj, hmap]
    obtain ⟨e0, e1, e2⟩ := updateRow_spec t (gamesFor t df) (rows.getD j d)
    have hstep : stepTeams (t :: ts) rows = stepTeams ts (applyTeam t rows) := rfl
    obtain ⟨i0, i1, i2⟩ := ih hts (applyTeam t rows) hmap' j hj' d
    rw [hrow] at i0 i1 i2
    have fht : (updateRow t (gamesFor t df) (rows.getD j d)).home_team =
        (rows.getD j d).home_team := congrArg Row.home_team e0
    have fat : (updateRow t (gamesFor t df) (rows.getD j d)).away_team =
        (rows.getD j d).away_team := congrArg Row.away_team e0
    have fdt : (updateRow t (gamesFor t df) (rows.getD j d)).date =
        (rows.getD j d).date := congrArg Row.date e0
    rw [fht, fdt, e1] at i1
    rw [fat, fdt, e2] at i2
    refine ⟨?_, ?_, ?_⟩
    · rw [hstep, i0, e0]
    · rw [hstep, i1]
      by_cases hh : (rows.getD j d).home_team = t
      · have htnotts : (rows.getD j d).home_team ∉ ts := by
          rw [hh]; exact ht
        rw [if_neg htnotts, if_pos hh, if_pos (List.mem_cons.mpr (Or.inl hh)), hh]
      · rw [if_neg hh]
        by_cases hmem : (rows.getD j d).home_team ∈ ts
        · rw [if_pos hmem, if_pos (List.mem_cons.mpr (Or.inr hmem))]
        · rw [if_neg hmem, if_neg (by
            intro hc
            rcases List.mem_cons.mp hc with hc | hc
            · exact hh hc
            · exact hmem hc)]
    · rw [hstep, i2]
      by_cases hh : (rows.getD j d).away_team = t
      · have htnotts : (rows.getD j d).away_team ∉ ts := by
          rw [hh]; exact ht
        rw [if_neg htnotts, if_pos hh, if_pos (List.mem_cons.mpr (Or.inl hh)), hh]
      · rw [if_neg hh]
        by_cases hmem : (rows.getD j d).away_team ∈ ts
        · rw [if_pos hmem, if_pos (List.mem_cons.mpr (Or.inr hmem))]
        · rw [if_neg hmem, if_neg (by
            intro hc
            rcases List.mem_cons.mp hc with hc | hc
            · exact hh hc
            · exact hmem hc)]

lemma uniqueFirst_loop_mem (l acc : List String) (x : String) :
    x ∈ l.foldl (fun a y => if y ∈ a then a else a ++ [y]) acc ↔ x ∈ acc ∨ x ∈ l := by
  induction l generalizing acc with
  | nil => simp
  | cons y t ih =>
    show x ∈ t.foldl _ (if y ∈ acc then acc else acc ++ [y]) ↔ _
    rw [ih]
    by_cases hy : y ∈ acc
    · rw [if_pos hy]
      constructor
      · rintro (h | h)
        · exact Or.inl h
        · exact Or.inr (List.mem_cons.mpr (Or.inr h))
      · rintro (h | h)
        · exact Or.inl h
        · rcases List.mem_cons.mp h with rfl | h
          · exact Or.inl hy
          · exact Or.inr h
    · rw [if_neg hy]
      simp only [List.mem_append, List.mem_singleton, List.mem_cons]
      tauto

lemma uniqueFirst_loop_nodup (l : List String) :
    ∀ acc : List String, acc.Nodup →
      (l.foldl (fun a y => if y ∈ a then a else a ++ [y]) acc).Nodup := by
  induction l with
  | nil => intro acc h; exact h
  | cons y t ih =>
    intro acc h
    show (t.foldl _ (if y ∈ acc then acc else acc ++ [y])).Nodup
    by_cases hy : y ∈ acc
    · rw [if_pos hy]; exact ih acc h
    · rw [if_neg hy]
      exact ih (acc ++ [y]) (by simp [List.nodup_append, h, hy])

lemma homeTeamsOf_mem (df : List Row) (team : String) :
    team ∈ homeTeamsOf df ↔ team ∈ df.map Row.home_team := by
  unfold homeTeamsOf uniqueFirst
  rw [uniqueFirst_loop_mem]
  simp

lemma homeTeamsOf_nodup (df : List Row) : (homeTeamsOf df).Nodup :=
  uniqueFirst_loop_nodup (df.map Row.home_team) [] List.nodup_nil

lemma initRows_map_toRow (df : List Row) :
    (df.map (fun r => ({ toRow := r } : ERow))).map ERow.toRow = df := by
  rw [List.map_map]
  exact List.map_id df

lemma initRows_getD (df : List Row) (j : ℕ) (hj : j < df.length) :
    (df.map (fun r => ({ toRow := r } : ERow))).getD j default =
      { toRow := df.getD j default } := by
  have hj' : j < (df.map (fun r => ({ toRow := r } : ERow))).length := by
    rw [List.length_map]; exact hj
  rw [List.getD_eq_get _ _ hj', List.getD_eq_get _ _ hj]
  simp [List.get_eq_getElem]

/-- The per-row effect of the full `create_rolling_features` loop: every
row's base columns survive; its `home_*` columns hold the first date-match
in the home team's rolling sequence (or stay missing); its `away_*` columns
hold the first date-match in the away team's sequence if that team occurs
anywhere as a home team, and stay missing otherwise. -/
lemma createRolling_getD (df : List Row) (j : ℕ) (hj : j < df.length) :
    ((createRollingFeatures df).getD j default).toRow = df.getD j default ∧
    ((createRollingFeatures df).getD j default).home_stats =
      (lookupStats (gamesFor (df.getD j default).home_team df)
        (df.getD j default).date).getD {} ∧
    ((createRollingFeatures df).getD j default).away_stats =
      (if (df.getD j default).away_team ∈ df.map Row.home_team
       then (lookupStats (gamesFor (df.getD j default).away_team df)
         (df.getD j default).date).getD {}
       else {}) := by
  have hmap := initRows_map_toRow df
  have hj' : j < (df.map (fun r => ({ toRow := r } : ERow))).length := by
    rw [List.length_map]; exact hj
  obtain ⟨s0, s1, s2⟩ := stepTeams_spec df (homeTeamsOf df) (homeTeamsOf_nodup df)
    (df.map (fun r => ({ toRow := r } : ERow))) hmap j hj' default
  rw [initRows_getD df j hj] at s0 s1 s2
  have hhome : (({ toRow := df.getD j default } : ERow)).home_team ∈ homeTeamsOf df := by
    rw [homeTeamsOf_mem]
    refine List.mem_map.mpr ⟨df.getD j default, ?_, rfl⟩
    rw [List.getD_eq_get _ _ hj]
    exact List.get_mem df j hj
  refine ⟨s0, ?_, ?_⟩
  · show ((stepTeams (homeTeamsOf df) (df.map (fun r => ({ toRow := r } : ERow)))).getD
      j default).home_stats = _
    rw [s1, if_pos hhome]
  · show ((stepTeams (homeTeamsOf df) (df.map (fun r => ({ toRow := r } : ERow)))).getD
      j default).away_stats = _
    rw [s2, if_congr (homeTeamsOf_mem df _) rfl rfl]

attribute [local semireducible] Rat.add Rat.mul Rat.inv Rat.sub in
/-- Counterexample to C3: two of team A's records match the date-2 lookup
and their rolling form values differ (1 vs 0), yet the joiner raises
nothing — it silently attaches the first record's value to the fixture. -/
theorem joiner_ambiguous_counterexample :
    ((gamesFor "A" exDfC3).filter (fun g => g.1.date == 2)).length = 2 ∧
    (((gamesFor "A" exDfC3).filter (fun g => g.1.date == 2)).getD 0 default).2.form = some 1 ∧
    (((gamesFor "A" exDfC3).filter (fun g => g.1.date == 2)).getD 1 default).2.form = some 0 ∧
    ((createRollingFeatures exDfC3).getD 2 default).away_stats.form = some 1 := by decide

/-- C3 amended: the joiner's (team, date) lookup never raises. When no
record matches, the feature values stay missing; when one or more records
match — even with differing values — the first matching record's values are
attached. (The away side is only filled for teams that occur as a home
team; see C4.) -/
theorem joiner_first_match_no_error (df : List Row) (j : ℕ) (hj : j < df.length) :
    (((gamesFor (df.getD j default).home_team df).filter
        (fun g => g.1.date == (df.getD j default).date)) = [] →
      ((createRollingFeatures df).getD j default).home_stats = {}) ∧
    (∀ g0, ((gamesFor (df.getD j default).home_team df).filter
        (fun g => g.1.date == (df.getD j default).date)).head? = some g0 →
      ((createRollingFeatures df).getD j default).home_stats = g0.2) ∧
    ((df.getD j default).away_team ∈ df.map Row.home_team →
      ((((gamesFor (df.getD j default).away_team df).filter
          (fun g => g.1.date == (df.getD j default).date)) = [] →
        ((createRollingFeatures df).getD j default).away_stats = {}) ∧
       (∀ g0, ((gamesFor (df.getD j default).away_team df).filter
          (fun g => g.1.date == (df.getD j default).date)).head? = some g0 →
        ((createRollingFeatures df).getD j default).away_stats = g0.2))) := by
  obtain ⟨-, h1, h2⟩ := createRolling_getD df j hj
  refine ⟨?_, ?_, ?_⟩
  · intro hnil
    rw [h1]
    unfold lookupStats
    rw [hnil]
    rfl
  · intro g0 hg0
    rw [h1]
    unfold lookupStats
    rw [hg0]
    rfl
  · intro hmem
    rw [h2, if_pos hmem]
    constructor
    · intro hnil
      unfold lookupStats
      rw [hnil]
      rfl
    · intro g0 hg0
      unfold lookupStats
      rw [hg0]
      rfl

attribute [local semireducible] Rat.add Rat.mul Rat.inv Rat.sub in
/-- Witness for C3 amended at `exDfC3`, fixture index 2 (team A away): the
lookup finds a (first) record and its statistics are the ones attached. -/
theorem joiner_first_match_no_error_witness :
    2 < exDfC3.length ∧
    (exDfC3.getD 2 default).away_team ∈ exDfC3.map Row.home_team ∧
    ((gamesFor (exDfC3.getD 2 default).away_team exDfC3).filter
        (fun g => g.1.date == (exDfC3.getD 2 default).date)).head? =
      some (((gamesFor (exDfC3.getD 2 default).away_team exDfC3).filter
        (fun g => g.1.date == (exDfC3.getD 2 default).date)).getD 0 default) ∧
    ((createRollingFeatures exDfC3).getD 2 default).away_stats =
      (((gamesFor (exDfC3.getD 2 default).away_team exDfC3).filter
        (fun g => g.1.date == (exDfC3.getD 2 default).date)).getD 0 default).2 :=
  ⟨by decide, by decide, by decide,
   ((joiner_first_match_no_error exDfC3 2 (by decide)).2.2 (by decide)).2 _ (by decide)⟩

attribute [local semireducible] Rat.add Rat.mul Rat.inv Rat.sub in
/-- Counterexample to C4: team B appears (only) as an away team; by B's own
rolling sequence its second match should carry form -1, but the per-team
loop iterates over home teams only, so B's away rolling features are left
entirely missing. -/
theorem rolling_away_only_counterexample :
    "B" ∈ exDfC4.map Row.away_team ∧
    2 ≤ (teamGames "B" exDfC4).length ∧
    ((attachRolling (teamGames "B" exDfC4)).getD 1 default).2.form = some (-1) ∧
    ((createRollingFeatures exDfC4).getD 1 default).away_stats = ({} : RollingStats) := by
  decide

/-- C4 amended: rolling-history features are computed and attached for
every distinct team that appears as a home team somewhere in the fixture
set (for such teams the away side is filled too, with the negated outcome
and away-side remap in the team sequence); a team that never appears as a
home team gets no rolling features for its away appearances. -/
theorem rolling_features_home_teams_only (df : List Row) (j : ℕ) (hj : j < df.length) :
    ((createRollingFeatures df).getD j default).home_stats =
      (lookupStats (gamesFor (df.getD j default).home_team df)
        (df.getD j default).date).getD {} ∧
    ((df.getD j default).away_team ∈ df.map Row.home_team →
      ((createRollingFeatures df).getD j default).away_stats =
        (lookupStats (gamesFor (df.getD j default).away_team df)
          (df.getD j default).date).getD {}) ∧
    ((df.getD j default).away_team ∉ df.map Row.home_team →
      ((createRollingFeatures df).getD j default).away_stats = {}) ∧
    (∀ r : Row, (awayPersp r).result = -r.result ∧
      (awayPersp r).team_goals = r.away_goals ∧
      (awayPersp r).team_goals_conceded = r.home_goals ∧
      (awayPersp r).team_xg = r.away_xg ∧
      (awayPersp r).team_xg_conceded = r.home_xg) := by
  obtain ⟨-, h1, h2⟩ := createRolling_getD df j hj
  refine ⟨h1, ?_, ?_, ?_⟩
  · intro hmem
    rw [h2, if_pos hmem]
  · intro hmem
    rw [h2, if_neg hmem]
  · intro r
    exact ⟨rfl, rfl, rfl, rfl, rfl⟩

/-- Witness for C4 amended at `exDf`, fixture index 0. -/
theorem rolling_features_home_teams_only_witness :
    0 < exDf.length ∧
    ((createRollingFeatures exDf).getD 0 default).home_stats =
      (lookupStats (gamesFor (exDf.getD 0 default).home_team exDf)
        (exDf.getD 0 default).date).getD {} :=
  ⟨by decide, (rolling_features_home_teams_only exDf 0 (by decide)).1⟩

lemma getCol_filter_keep (t : Table) (p : String × List Val → Bool) (n : String)
    (hp : ∀ c : String × List Val, c.1 = n → p c = true) :
    getCol (t.filter p) n = getCol t n := by
  unfold getCol
  have hcomm : (t.filter p).filter (fun c => c.1 == n) =
      (t.filter (fun c => c.1 == n)).filter p := List.filter_comm _ _ t
  have hself : (t.filter (fun c => c.1 == n)).filter p =
      t.filter (fun c => c.1 == n) := by
    apply List.filter_eq_self.mpr
    intro c hc
    exact hp c (by simpa using (List.mem_filter.mp hc).2)
  rw [hcomm, hself]

/-- C8: each pipeline stage keeps the identity fields — date, home team and
away team — of every fixture row: the rolling-feature stage and the
comparison stage preserve them row-wise, and the encoder and cleaner
preserve the identity columns read by name. -/
theorem pipeline_preserves_identity :
    (∀ (df : List Row) (j : ℕ), j < df.length →
      ((createRollingFeatures df).getD j default).date = (df.getD j default).date ∧
      ((createRollingFeatures df).getD j default).home_team = (df.getD j default).home_team ∧
      ((createRollingFeatures df).getD j default).away_team = (df.getD j default).away_team) ∧
    (∀ (edf : List ERow) (j : ℕ), j < edf.length →
      ((createComparisonFeatures edf).getD j default).date = (edf.getD j default).date ∧
      ((createComparisonFeatures edf).getD j default).home_team = (edf.getD j default).home_team ∧
      ((createComparisonFeatures edf).getD j default).away_team = (edf.getD j default).away_team) ∧
    (∀ (t : Table) (n : String) (c : List Val),
      (n = "date" ∨ n = "home_team" ∨ n = "away_team") →
      getCol t n = some c → getCol (encodeTeams t) n = some c) ∧
    (∀ (t : Table) (n : String) (c : List Val),
      (n = "date" ∨ n = "home_team" ∨ n = "away_team") →
      getCol t n = some c →
      ∃ t2, cleanData t none = .ok t2 ∧ getCol t2 n = some c) := by
  refine ⟨?_, ?_, ?_, ?_⟩
  · intro df j hj
    have h0 := (createRolling_getD df j hj).1
    exact ⟨congrArg Row.date h0, congrArg Row.home_team h0, congrArg Row.away_team h0⟩
  · intro edf j hj
    have h0 := congrArg CRow.toERow (createComparisonFeatures_getD edf j hj)
    have h0' : ((createComparisonFeatures edf).getD j default).toERow.toRow =
        (edf.getD j default).toRow := congrArg ERow.toRow h0
    exact ⟨congrArg Row.date h0', congrArg Row.home_team h0', congrArg Row.away_team h0'⟩
  · intro t n c _ hc
    rw [encodeTeams]
    rw [getCol_append_of_isSome t (dummyCols t) n (by rw [hc]; rfl)]
    exact hc
  · intro t n c hn hc
    refine ⟨_, cleanData_default_filter t, ?_⟩
    rw [getCol_filter_keep t _ n ?_]
    · exact hc
    · intro col hcol
      rcases hn with rfl | rfl | rfl <;> simp [hcol]

/-- Witness for C8 at concrete inputs for all four stages. -/
theorem pipeline_preserves_identity_witness :
    (((createRollingFeatures exDf).getD 0 default).date = (exDf.getD 0 default).date ∧
     ((createRollingFeatures exDf).getD 0 default).home_team = (exDf.getD 0 default).home_team ∧
     ((createRollingFeatures exDf).getD 0 default).away_team = (exDf.getD 0 default).away_team) ∧
    (((createComparisonFeatures exEDf).getD 0 default).date = (exEDf.getD 0 default).date ∧
     ((createComparisonFeatures exEDf).getD 0 default).home_team = (exEDf.getD 0 default).home_team ∧
     ((createComparisonFeatures exEDf).getD 0 default).away_team = (exEDf.getD 0 default).away_team) ∧
    getCol (encodeTeams exTable) "home_team" = some [Val.str "A", Val.str "B"] ∧
    (∃ t2, cleanData exTable none = .ok t2 ∧
      getCol t2 "home_team" = some [Val.str "A", Val.str "B"]) :=
  ⟨pipeline_preserves_identity.1 exDf 0 (by decide),
   pipeline_preserves_identity.2.1 exEDf 0 (by decide),
   pipeline_preserves_identity.2.2.1 exTable "home_team" [Val.str "A", Val.str "B"]
     (Or.inr (Or.inl rfl)) (by decide),
   pipeline_preserves_identity.2.2.2 exTable "home_team" [Val.str "A", Val.str "B"]
     (Or.inr (Or.inl rfl)) (by decide)⟩

/-- Witness for C7: the W row maps to +1 and an X row aborts the table. -/
theorem normalizer_outcome_map_witness :
    prepareRow (fun _ => 7) (exRawRow "W") = .ok
      { date := 7, time := "12:30", round := "Matchweek 1"
        home_team := "A", away_team := "B", venue := "Home"
        result := 1
        home_goals := 3, away_goals := 0, home_poss := 60, away_poss := 40
        home_xg := 2, away_xg := 1, home_sh := 10, away_sh := 8
        home_shot_on_target := 4, away_shot_on_target := 3, season := 2021 } ∧
    (∃ e, loadAndPrepare (fun _ => 7) [exRawRow "X"] = .error e) :=
  ⟨((normalizer_outcome_map (fun _ => 7)).1 (exRawRow "W")).1 rfl,
   (normalizer_outcome_map (fun _ => 7)).2 [exRawRow "X"]
     ⟨exRawRow "X", by decide, by decide, by decide, by decide⟩⟩

end PL
